import Mathlib

/-!
Verification of the payment-gated file access and commission-split workflow of
the UpLink marketplace backend.

The definitions below are a shallow embedding of the relevant TypeScript source:

* `backend/src/controllers` payment controller (`createPaymentOrder`,
  `paymentWebhook`, `handlePaymentSuccess`, `handlePaymentFailure`,
  `handlePaymentDropped`, `processCreatorPayout`) and the file controller's
  `getDownloadUrl`;
* `backend/src/models/Payment.ts` (the `pre('save')` order-id hook and field
  defaults).

Mongo documents become Lean structures; the Mongo collections become lists that
keep insertion order (a new document is appended at the end); monetary values
are exact rationals; `Math.round` is `⌊x + 1/2⌋`; JavaScript truthiness of an
optional string field (`undefined` / `""` are falsy) is `strFalsy`.  External
collaborators (the Cashfree order call, id/timestamp generation) enter as
explicit parameters.  The counters `payoutTriggerCount` / `payoutDispatchCount`
record how many times the payout routine was invoked and how many times its
dispatch section (the stubbed external payout call) was reached: they model the
externally observable payout actions.
-/

namespace UpLink

/-- JavaScript truthiness of an optional string field: `undefined`, `null` and
`""` are all falsy. -/
def strFalsy : Option String → Bool
  | none => true
  | some s => s == ""

/-- JavaScript `a || b` on two optional strings (used for
`payment_id || bank_reference`). -/
def jsOrOpt (a b : Option String) : Option String :=
  if strFalsy a then b else a

/-- A document of the `payments` collection (`backend/src/models/Payment.ts`). -/
structure Payment where
  id : String
  fileId : String
  creatorId : String
  clientId : String
  amount : ℚ
  status : String
  paymentMethod : String
  cashfreeOrderId : Option String
  cashfreePaymentId : Option String
  transactionId : Option String
  failureReason : Option String
  paidAt : Option Nat
  platformCommission : ℚ
  creatorShare : ℚ
  payoutStatus : String
  payoutId : Option String
  payoutTransferId : Option String
  payoutAt : Option Nat
  payoutFailureReason : Option String
  creatorUpiPhone : Option String
  deriving Repr, DecidableEq

/-- A document of the `files` collection (the fields the payment/download flow
reads). -/
structure FileRec where
  id : String
  creatorId : String
  isPublic : Bool
  price : ℚ
  status : String
  deriving Repr, DecidableEq

/-- A document of the `users` collection (the fields the payment flow reads). -/
structure UserRec where
  id : String
  name : String
  phone : Option String
  upiId : Option String
  deriving Repr, DecidableEq

/-- The Cashfree configuration read at startup (`backend/src/config/cashfree.ts`):
`CASHFREE_CONFIGURED` and `PLATFORM_COMMISSION_RATE`. -/
structure CashfreeConfig where
  configured : Bool
  commissionRate : ℚ
  deriving Repr, DecidableEq

/-- The database state, together with ghost counters for the externally
observable payout actions. -/
structure SysState where
  payments : List Payment
  files : List FileRec
  users : List UserRec
  payoutTriggerCount : Nat
  payoutDispatchCount : Nat
  deriving Repr, DecidableEq

/-- `Payment.findById`. -/
def findPaymentById (ps : List Payment) (i : String) : Option Payment :=
  ps.find? (fun p => p.id == i)

/-- `Payment.findOne({cashfreeOrderId: tok})`. -/
def findPaymentByOrder (ps : List Payment) (tok : String) : Option Payment :=
  ps.find? (fun p => p.cashfreeOrderId == some tok)

/-- `File.findById`. -/
def findFileById (fs : List FileRec) (i : String) : Option FileRec :=
  fs.find? (fun f => f.id == i)

/-- `User.findById`. -/
def findUserById (us : List UserRec) (i : String) : Option UserRec :=
  us.find? (fun u => u.id == i)

/-- `doc.save()` on an existing document: replace the stored document with the
same `_id` by the mutated one. -/
def savePayment (ps : List Payment) (p : Payment) : List Payment :=
  ps.map (fun q => if q.id == p.id then p else q)

/-- `Payment.findByIdAndDelete`. -/
def deletePaymentById (ps : List Payment) (i : String) : List Payment :=
  ps.filter (fun p => p.id != i)

/-- `File.findByIdAndUpdate(fileId, {status: st})`. -/
def updateFileStatus (fs : List FileRec) (i : String) (st : String) : List FileRec :=
  fs.map (fun f => if f.id == i then { f with status := st } else f)

/-- `Math.round(x * 100) / 100` (JavaScript `Math.round` is `⌊x + 1/2⌋`),
as used in `createPaymentOrder` for both shares. -/
def round2 (x : ℚ) : ℚ := ((⌊x * 100 + 1/2⌋ : ℤ) : ℚ) / 100

/-- `platformCommission = Math.round(amount * PLATFORM_COMMISSION_RATE * 100) / 100`. -/
def platformCommissionOf (amount rate : ℚ) : ℚ := round2 (amount * rate)

/-- `creatorShare = Math.round((amount - platformCommission) * 100) / 100`:
the source rounds the creator share a second time. -/
def creatorShareOf (amount rate : ℚ) : ℚ :=
  round2 (amount - platformCommissionOf amount rate)

/-- The response of the external Cashfree order-creation call. -/
structure CfOrderResponse where
  order_id : String
  cf_order_id : String
  payment_session_id : String
  deriving Repr, DecidableEq

/-- Outcome of the order-creation endpoint: HTTP status, success flag, and the
payment store afterwards (the flow touches no other collection). -/
structure CreateOrderOutcome where
  statusCode : Nat
  success : Bool
  payments : List Payment
  deriving Repr, DecidableEq

/-- The new `Payment` document built by `createPaymentOrder` and saved for the
first time; the `pre('save')` hook of `Payment.ts` assigns the fresh
`uplink_<timestamp>_<random>` order token `genOrderId` because the document is
new and has no `cashfreeOrderId` yet. -/
def newPaymentDoc (cfg : CashfreeConfig) (file : FileRec) (creator : UserRec)
    (userId newPaymentId genOrderId : String) : Payment :=
  { id := newPaymentId
    fileId := file.id
    creatorId := creator.id
    clientId := userId
    amount := file.price
    status := "pending"
    paymentMethod := "upi"
    cashfreeOrderId := some genOrderId
    cashfreePaymentId := none
    transactionId := none
    failureReason := none
    paidAt := none
    platformCommission := platformCommissionOf file.price cfg.commissionRate
    creatorShare := creatorShareOf file.price cfg.commissionRate
    payoutStatus := "pending"
    payoutId := none
    payoutTransferId := none
    payoutAt := none
    payoutFailureReason := none
    creatorUpiPhone := if strFalsy creator.phone then none else creator.phone }

/-- Shallow embedding of `createPaymentOrder` (the payment controller).
`validationOk` is the express-validator outcome; `newPaymentId` the Mongo id of
the new document; `genOrderId` the token produced by the `pre('save')` hook;
`gw` the outcome of the external Cashfree `createOrder` call (`.error` when the
gateway call throws).  On gateway success the handler overwrites
`payment.cashfreeOrderId` with the response's `cf_order_id` and saves again; on
gateway error it deletes the just-created record. -/
def createPaymentOrder (cfg : CashfreeConfig) (st : SysState)
    (userId fileId : String) (validationOk : Bool)
    (newPaymentId genOrderId : String)
    (gw : Except String CfOrderResponse) : CreateOrderOutcome :=
  if !validationOk then ⟨400, false, st.payments⟩
  else if !cfg.configured then ⟨503, false, st.payments⟩
  else
    match findFileById st.files fileId with
    | none => ⟨404, false, st.payments⟩
    | some file =>
      if !file.isPublic || file.price ≤ 0 then ⟨400, false, st.payments⟩
      else if file.creatorId == userId then ⟨400, false, st.payments⟩
      else
        match findUserById st.users file.creatorId with
        | none => ⟨404, false, st.payments⟩
        | some creator =>
          let payment := newPaymentDoc cfg file creator userId newPaymentId genOrderId
          let saved := st.payments ++ [payment]
          match gw with
          | .ok resp =>
            ⟨201, true, savePayment saved { payment with cashfreeOrderId := some resp.cf_order_id }⟩
          | .error _ =>
            ⟨500, false, deletePaymentById saved payment.id⟩

/-- The `data.order` member of a webhook payload; its absence (the handler
destructures `order.cf_order_id` on `undefined`) models a malformed payload. -/
structure OrderInfo where
  cf_order_id : String
  deriving Repr, DecidableEq

/-- The `data.payment` member of a webhook payload. -/
structure PaymentInfo where
  cf_payment_id : Option String
  payment_id : Option String
  bank_reference : Option String
  payment_method : Option String
  payment_message : Option String
  deriving Repr, DecidableEq

/-- The `data` member of a webhook payload. -/
structure WebhookData where
  order : Option OrderInfo
  payment : Option PaymentInfo
  deriving Repr, DecidableEq

/-- An inbound webhook request body `{type, data}`; `none` members model
missing pieces of a malformed payload. -/
structure WebhookEvent where
  type : Option String
  data : Option WebhookData
  deriving Repr, DecidableEq

/-- `paymentData.payment_method?.toLowerCase() || 'upi'`. -/
def methodOf : Option String → String
  | none => "upi"
  | some s => if s.toLower == "" then "upi" else s.toLower

/-- `paymentData?.payment_message || 'Payment failed'`. -/
def failureReasonOf : Option PaymentInfo → String
  | none => "Payment failed"
  | some p =>
    match p.payment_message with
    | none => "Payment failed"
    | some m => if m == "" then "Payment failed" else m

/-- Shallow embedding of `processCreatorPayout`.  The function itself being
invoked bumps `payoutTriggerCount`; reaching the (stubbed) external payout
dispatch section bumps `payoutDispatchCount`.  `payoutIdGen` / `transferIdGen`
stand for the generated `payout_<ts>_<rand>` / `transfer_<ts>_<rand>` strings
and `now` for `Date.now()`. -/
def processCreatorPayout (cfg : CashfreeConfig) (st : SysState) (payment : Payment)
    (payoutIdGen transferIdGen : String) (now : Nat) : SysState :=
  let st := { st with payoutTriggerCount := st.payoutTriggerCount + 1 }
  if !cfg.configured then
    { st with payments := savePayment st.payments { payment with payoutStatus := "not_required" } }
  else
    match findUserById st.users payment.creatorId with
    | none =>
      let pf := { payment with payoutStatus := "failed",
                               payoutFailureReason := some "Creator not found" }
      { st with payments := savePayment st.payments pf }
    | some creator =>
      if strFalsy creator.phone && strFalsy creator.upiId then
        let pf := { payment with payoutStatus := "failed",
                                 payoutFailureReason := some "Creator UPI details missing" }
        { st with payments := savePayment st.payments pf }
      else
        let p1 := { payment with payoutStatus := "processing" }
        let st1 := { st with payments := savePayment st.payments p1 }
        let st2 := { st1 with payoutDispatchCount := st1.payoutDispatchCount + 1 }
        let p2 := { p1 with payoutStatus := "completed", payoutId := some payoutIdGen,
                            payoutTransferId := some transferIdGen, payoutAt := some now }
        { st2 with payments := savePayment st2.payments p2 }

/-- Shallow embedding of `handlePaymentSuccess`.  A `none` `data` or
`data.order` or `data.payment` models the `TypeError` raised when the handler
touches the absent member; the handler's own `catch` swallows it, so the store
is untouched and an error is logged.  Note there is no terminal-state guard:
whatever the found payment's current status, the handler re-mutates it and
re-invokes the payout routine. -/
def handlePaymentSuccess (cfg : CashfreeConfig) (st : SysState) (data : Option WebhookData)
    (payoutIdGen transferIdGen : String) (now : Nat) : SysState × List String :=
  match data with
  | none => (st, ["error: cannot destructure webhook data"])
  | some d =>
    match d.order with
    | none => (st, ["error: cannot read cf_order_id of undefined"])
    | some o =>
      match findPaymentByOrder st.payments o.cf_order_id with
      | none => (st, ["error: Payment record not found for Cashfree order"])
      | some payment =>
        match d.payment with
        | none => (st, ["error: cannot read cf_payment_id of undefined"])
        | some pd =>
          let p1 := { payment with
            status := "completed"
            cashfreePaymentId := pd.cf_payment_id
            transactionId := jsOrOpt pd.payment_id pd.bank_reference
            paymentMethod := methodOf pd.payment_method
            paidAt := some now }
          let st1 := { st with payments := savePayment st.payments p1 }
          let st2 := { st1 with files := updateFileStatus st1.files p1.fileId "delivered" }
          (processCreatorPayout cfg st2 p1 payoutIdGen transferIdGen now,
           ["info: Payment completed"])

/-- Shallow embedding of `handlePaymentFailure`. -/
def handlePaymentFailure (st : SysState) (data : Option WebhookData) : SysState × List String :=
  match data with
  | none => (st, ["error: cannot destructure webhook data"])
  | some d =>
    match d.order with
    | none => (st, ["error: cannot read cf_order_id of undefined"])
    | some o =>
      match findPaymentByOrder st.payments o.cf_order_id with
      | none => (st, ["error: Payment record not found for order"])
      | some payment =>
        let p1 := { payment with
          status := "failed"
          failureReason := some (failureReasonOf d.payment)
          payoutStatus := "not_required" }
        ({ st with payments := savePayment st.payments p1 }, ["info: Payment failed"])

/-- Shallow embedding of `handlePaymentDropped`. -/
def handlePaymentDropped (st : SysState) (data : Option WebhookData) : SysState × List String :=
  match data with
  | none => (st, ["error: cannot destructure webhook data"])
  | some d =>
    match d.order with
    | none => (st, ["error: cannot read cf_order_id of undefined"])
    | some o =>
      match findPaymentByOrder st.payments o.cf_order_id with
      | none => (st, ["error: Payment record not found for order"])
      | some payment =>
        let p1 := { payment with
          status := "failed"
          failureReason := some "Payment dropped by user"
          payoutStatus := "not_required" }
        ({ st with payments := savePayment st.payments p1 }, ["info: Payment dropped"])

/-- Result of the webhook endpoint: HTTP status, success flag, resulting state
and the log lines emitted while processing. -/
structure WebhookResult where
  statusCode : Nat
  success : Bool
  state : SysState
  logs : List String
  deriving Repr, DecidableEq

/-- Shallow embedding of `paymentWebhook`: log receipt, dispatch on the `type`
string (unknown types are silently ignored), and answer 200/success; each
per-event handler catches its own errors, so nothing reaches the endpoint's
outer `catch`. -/
def paymentWebhook (cfg : CashfreeConfig) (st : SysState) (ev : WebhookEvent)
    (payoutIdGen transferIdGen : String) (now : Nat) : WebhookResult :=
  let receipt := "info: Payment webhook received"
  if ev.type == some "PAYMENT_SUCCESS_WEBHOOK" then
    let r := handlePaymentSuccess cfg st ev.data payoutIdGen transferIdGen now
    ⟨200, true, r.1, receipt :: r.2⟩
  else if ev.type == some "PAYMENT_FAILED_WEBHOOK" then
    let r := handlePaymentFailure st ev.data
    ⟨200, true, r.1, receipt :: r.2⟩
  else if ev.type == some "PAYMENT_USER_DROPPED_WEBHOOK" then
    let r := handlePaymentDropped st ev.data
    ⟨200, true, r.1, receipt :: r.2⟩
  else
    ⟨200, true, st, [receipt]⟩

/-- The download-authorization decision of `getDownloadUrl` (file controller).
`authorized` stands for answering with a presigned download URL. -/
inductive DownloadDecision where
  | notFound
  | authorized
  | paymentRequired (price : ℚ)
  | forbidden
  deriving Repr, DecidableEq

/-- Shallow embedding of the decision logic of `getDownloadUrl`: creators are
authorized unconditionally; for a public priced file a non-creator is checked
against `Payment.findOne({fileId, clientId, status: 'completed'})`; a private
file is forbidden to non-creators; otherwise authorized. -/
def getDownloadUrl (st : SysState) (fileId userId : String) : DownloadDecision :=
  match findFileById st.files fileId with
  | none => .notFound
  | some file =>
    if file.creatorId == userId then .authorized
    else if file.isPublic && decide (0 < file.price) then
      if (st.payments.find? (fun p =>
            p.fileId == file.id && p.clientId == userId && p.status == "completed")).isNone
      then .paymentRequired file.price
      else .authorized
    else if !file.isPublic then .forbidden
    else .authorized

/-- Specification-side definition, following the spec's words for the Access
Decision Engine: "look up the most recent PaymentIntent for (file, requester)".
The payment store keeps creation order (new records appended), so the most
recent matching intent is the last matching element.  It exists only to be
compared with `getDownloadUrl`, which the source implements differently. -/
def specMostRecentIntent (ps : List Payment) (fileId userId : String) : Option Payment :=
  (ps.filter (fun p => p.fileId == fileId && p.clientId == userId)).getLast?

/-! ### Store lemmas -/

lemma savePayment_map_id (ps : List Payment) (p : Payment) :
    (savePayment ps p).map Payment.id = ps.map Payment.id := by
  unfold savePayment
  rw [List.map_map]
  apply List.map_congr_left
  intro q hq
  simp only [Function.comp_apply]
  by_cases hid : (q.id == p.id) = true
  · rw [if_pos hid]
    exact (beq_iff_eq.mp hid).symm
  · rw [if_neg hid]

lemma savePayment_tokens (ps : List Payment) (p : Payment)
    (h : ∀ q ∈ ps, q.id = p.id → q.cashfreeOrderId = p.cashfreeOrderId) :
    (savePayment ps p).map Payment.cashfreeOrderId = ps.map Payment.cashfreeOrderId := by
  unfold savePayment
  rw [List.map_map]
  apply List.map_congr_left
  intro q hq
  simp only [Function.comp_apply]
  by_cases hid : (q.id == p.id) = true
  · rw [if_pos hid]
    exact (h q hq (beq_iff_eq.mp hid)).symm
  · rw [if_neg hid]

lemma mem_savePayment (ps : List Payment) (p q : Payment) (hq : q ∈ savePayment ps p) :
    q = p ∨ (q ∈ ps ∧ (q.id == p.id) = false) := by
  unfold savePayment at hq
  rcases List.mem_map.mp hq with ⟨r, hr, hrq⟩
  by_cases hid : (r.id == p.id) = true
  · left
    rw [if_pos hid] at hrq
    exact hrq.symm
  · right
    rw [if_neg hid] at hrq
    subst hrq
    exact ⟨hr, by simpa using hid⟩

lemma self_mem_savePayment (ps : List Payment) (p : Payment)
    (hmem : ∃ q ∈ ps, q.id = p.id) : p ∈ savePayment ps p := by
  rcases hmem with ⟨q, hq, hid⟩
  unfold savePayment
  exact List.mem_map.mpr ⟨q, hq, by simp [hid]⟩

lemma findById_savePayment (ps : List Payment) (p : Payment)
    (hmem : ∃ q ∈ ps, q.id = p.id) :
    findPaymentById (savePayment ps p) p.id = some p := by
  induction ps with
  | nil => rcases hmem with ⟨q, hq, _⟩; exact absurd hq (List.not_mem_nil q)
  | cons q rest ih =>
    have hsave : savePayment (q :: rest) p
        = (if q.id == p.id then p else q) :: savePayment rest p := rfl
    by_cases hq : (q.id == p.id) = true
    · rw [hsave, if_pos hq]
      unfold findPaymentById
      rw [List.find?_cons_of_pos _ (by simp)]
    · rw [hsave, if_neg hq]
      have hrest : ∃ r ∈ rest, r.id = p.id := by
        rcases hmem with ⟨r, hr, hid⟩
        rcases List.mem_cons.mp hr with rfl | hr'
        · exact absurd (beq_iff_eq.mpr hid) hq
        · exact ⟨r, hr', hid⟩
      unfold findPaymentById at ih ⊢
      rw [List.find?_cons_of_neg _ (by simpa using hq)]
      exact ih hrest

lemma deletePaymentById_append_fresh (ps : List Payment) (p : Payment)
    (h : ∀ q ∈ ps, q.id ≠ p.id) : deletePaymentById (ps ++ [p]) p.id = ps := by
  unfold deletePaymentById
  rw [List.filter_append]
  have h1 : ps.filter (fun q => q.id != p.id) = ps :=
    List.filter_eq_self.mpr (fun q hq => by simpa [bne_iff_ne] using h q hq)
  have h2 : [p].filter (fun q => q.id != p.id) = [] := by simp
  rw [h1, h2, List.append_nil]

/-! ### Commission split (claim C2) -/

lemma round2_intCast_div (k : ℤ) : round2 ((k : ℚ) / 100) = (k : ℚ) / 100 := by
  unfold round2
  have h : (k : ℚ) / 100 * 100 + 1 / 2 = 1 / 2 + (k : ℚ) := by ring
  rw [h, Int.floor_add_int]
  have h0 : ⌊(1 / 2 : ℚ)⌋ = 0 := by
    rw [Int.floor_eq_zero_iff]
    constructor <;> norm_num
  rw [h0]
  push_cast
  ring

/-- C2 (counterexample): the sum invariant fails at the valid input
`amount = 10.003`, `rate = 0.10`: the platform share rounds to `1.00`, the
creator share — computed by a second rounding — to `9.00`, summing to `10.00`,
not `10.003`. -/
theorem C2_counterexample :
    (0 : ℚ) < 10003 / 1000 ∧ (0 : ℚ) ≤ 1 / 10 ∧ (1 / 10 : ℚ) ≤ 1 ∧
    platformCommissionOf (10003 / 1000) (1 / 10) + creatorShareOf (10003 / 1000) (1 / 10)
      ≠ 10003 / 1000 := by
  refine ⟨by norm_num, by norm_num, by norm_num, ?_⟩
  simp only [platformCommissionOf, creatorShareOf, round2]
  have e1 : (10003 / 1000 : ℚ) * (1 / 10) * 100 + 1 / 2 = 10053 / 100 := by norm_num
  have f1 : ⌊(10053 / 100 : ℚ)⌋ = 100 := by
    rw [Int.floor_eq_iff]
    constructor <;> norm_num
  rw [e1, f1]
  have e2 : ((10003 / 1000 : ℚ) - ((100 : ℤ) : ℚ) / 100) * 100 + 1 / 2 = 9008 / 10 := by
    push_cast
    norm_num
  have f2 : ⌊(9008 / 10 : ℚ)⌋ = 900 := by
    rw [Int.floor_eq_iff]
    constructor <;> norm_num
  rw [e2, f2]
  push_cast
  norm_num

/-- C2 (amended): when `amount` is a whole number of paise (an integer multiple
of `0.01`) and `rate ∈ [0,1]`, `platformShare + creatorShare = amount` exactly —
the source rounds the creator share a second time
(`Math.round((amount - platformCommission) * 100) / 100`), but that second
rounding is the identity on whole-paise values. -/
theorem C2_amended (m : ℤ) (rate : ℚ) (_hm : 0 ≤ m) (_h0 : 0 ≤ rate) (_h1 : rate ≤ 1) :
    platformCommissionOf ((m : ℚ) / 100) rate + creatorShareOf ((m : ℚ) / 100) rate
      = (m : ℚ) / 100 := by
  unfold creatorShareOf
  have hp : platformCommissionOf ((m : ℚ) / 100) rate
      = ((⌊(m : ℚ) / 100 * rate * 100 + 1 / 2⌋ : ℤ) : ℚ) / 100 := rfl
  have h2 : (m : ℚ) / 100 - platformCommissionOf ((m : ℚ) / 100) rate
      = ((m - ⌊(m : ℚ) / 100 * rate * 100 + 1 / 2⌋ : ℤ) : ℚ) / 100 := by
    rw [hp]; push_cast; ring
  rw [h2, round2_intCast_div, hp]
  push_cast
  ring

/-- C2 witness: the spec's own scenario, price ₹500 at rate 0.10 (500 is 50000
paise): the shares sum exactly to 500. -/
theorem C2_amended_witness :
    (0 : ℤ) ≤ 50000 ∧ (0 : ℚ) ≤ 1 / 10 ∧ (1 / 10 : ℚ) ≤ 1 ∧
    platformCommissionOf (((50000 : ℤ) : ℚ) / 100) (1 / 10)
      + creatorShareOf (((50000 : ℤ) : ℚ) / 100) (1 / 10) = ((50000 : ℤ) : ℚ) / 100 :=
  ⟨by norm_num, by norm_num, by norm_num,
    C2_amended 50000 (1 / 10) (by norm_num) (by norm_num) (by norm_num)⟩

/-! ### Concrete fixtures shared by witnesses and counterexamples -/

/-- A configured gateway at the default 10% commission rate. -/
def cfgT : CashfreeConfig := ⟨true, 1 / 10⟩

/-- A creator with a registered UPI phone. -/
def creatorT : UserRec := ⟨"creator1", "Asha", some "9876543210", none⟩

/-- A creator with neither UPI phone nor UPI id. -/
def creatorNoUpiT : UserRec := ⟨"creator2", "Bina", none, none⟩

/-- A public priced file owned by `creator1`. -/
def fileT : FileRec := ⟨"file1", "creator1", true, 500, "ready"⟩

/-- A pending payment for `fileT` by `client1`, order token `cf_order_1`. -/
def payPendingT : Payment :=
  { id := "pay1", fileId := "file1", creatorId := "creator1", clientId := "client1",
    amount := 500, status := "pending", paymentMethod := "upi",
    cashfreeOrderId := some "cf_order_1", cashfreePaymentId := none,
    transactionId := none, failureReason := none, paidAt := none,
    platformCommission := 50, creatorShare := 450, payoutStatus := "pending",
    payoutId := none, payoutTransferId := none, payoutAt := none,
    payoutFailureReason := none, creatorUpiPhone := some "9876543210" }

/-- The `data` of a well-formed success webhook for order `cf_order_1`. -/
def successDataT : WebhookData :=
  ⟨some ⟨"cf_order_1"⟩, some ⟨some "cfpay1", some "txn1", none, some "UPI", none⟩⟩

/-- A well-formed success webhook event for order `cf_order_1`. -/
def evSuccessT : WebhookEvent := ⟨some "PAYMENT_SUCCESS_WEBHOOK", some successDataT⟩

/-- Store with one pending payment, its file and its creator. -/
def stT : SysState := ⟨[payPendingT], [fileT], [creatorT], 0, 0⟩

/-! ### C3: gateway error during order creation rolls the intent back -/

lemma createPaymentOrder_gw_error (cfg : CashfreeConfig) (st : SysState)
    (userId fileId newPaymentId genOrderId e : String) (file : FileRec) (creator : UserRec)
    (hconf : cfg.configured = true)
    (hfile : findFileById st.files fileId = some file)
    (hpub : file.isPublic = true) (hprice : 0 < file.price)
    (hnc : file.creatorId ≠ userId)
    (hcreator : findUserById st.users file.creatorId = some creator) :
    createPaymentOrder cfg st userId fileId true newPaymentId genOrderId (.error e)
      = ⟨500, false, deletePaymentById
          (st.payments ++ [newPaymentDoc cfg file creator userId newPaymentId genOrderId])
          newPaymentId⟩ := by
  have hc : (file.creatorId == userId) = false := by simpa using hnc
  have hd : decide (file.price ≤ 0) = false := decide_eq_false (not_le.mpr hprice)
  simp only [createPaymentOrder, hfile, hconf, hpub, hcreator, hc, hd, Bool.not_true,
    Bool.not_false, Bool.false_or, Bool.or_false, Bool.false_eq_true, if_true, if_false,
    ite_true, ite_false]
  rfl

/-- C3: if the order-creation flow reaches the external gateway call (validation
passed, gateway configured, public priced file, non-creator payer, creator
found, fresh payment id) and the gateway call throws, the endpoint answers 500,
the payment store is exactly what it was before the request, and in particular
no record with the new payment's id exists afterwards. -/
theorem C3_gateway_error_rolls_back
    (cfg : CashfreeConfig) (st : SysState) (userId fileId : String)
    (newPaymentId genOrderId e : String) (file : FileRec) (creator : UserRec)
    (hconf : cfg.configured = true)
    (hfile : findFileById st.files fileId = some file)
    (hpub : file.isPublic = true) (hprice : 0 < file.price)
    (hnc : file.creatorId ≠ userId)
    (hcreator : findUserById st.users file.creatorId = some creator)
    (hfresh : ∀ q ∈ st.payments, q.id ≠ newPaymentId) :
    (createPaymentOrder cfg st userId fileId true newPaymentId genOrderId (.error e)).payments
      = st.payments ∧
    (createPaymentOrder cfg st userId fileId true newPaymentId genOrderId (.error e)).statusCode
      = 500 ∧
    findPaymentById
      (createPaymentOrder cfg st userId fileId true newPaymentId genOrderId
        (.error e)).payments newPaymentId = none := by
  have hrun := createPaymentOrder_gw_error cfg st userId fileId newPaymentId genOrderId e
    file creator hconf hfile hpub hprice hnc hcreator
  have hps : (createPaymentOrder cfg st userId fileId true newPaymentId genOrderId
      (.error e)).payments = st.payments := by
    rw [hrun]
    exact deletePaymentById_append_fresh st.payments
      (newPaymentDoc cfg file creator userId newPaymentId genOrderId)
      (fun q hq => hfresh q hq)
  refine ⟨hps, by rw [hrun], ?_⟩
  rw [hps]
  unfold findPaymentById
  rw [List.find?_eq_none]
  intro q hq
  simpa using hfresh q hq

/-- C3 witness: concrete run on an empty payment store; the gateway throws and
the store stays empty. -/
theorem C3_witness :
    (createPaymentOrder cfgT ⟨[], [fileT], [creatorT], 0, 0⟩ "client1" "file1" true
        "pay9" "uplink_1_x" (.error "boom")).payments = [] ∧
    (createPaymentOrder cfgT ⟨[], [fileT], [creatorT], 0, 0⟩ "client1" "file1" true
        "pay9" "uplink_1_x" (.error "boom")).statusCode = 500 ∧
    findPaymentById
      (createPaymentOrder cfgT ⟨[], [fileT], [creatorT], 0, 0⟩ "client1" "file1" true
        "pay9" "uplink_1_x" (.error "boom")).payments "pay9" = none :=
  C3_gateway_error_rolls_back cfgT ⟨[], [fileT], [creatorT], 0, 0⟩ "client1" "file1"
    "pay9" "uplink_1_x" "boom" fileT creatorT rfl (by decide) rfl (by norm_num [fileT])
    (by decide) (by decide) (by intro q hq; exact absurd hq (List.not_mem_nil q))

/-! ### C4: download gating for a non-creator on a public priced file -/

/-- An older completed payment by `client1` for `fileT`. -/
def payDoneOldT : Payment :=
  { payPendingT with id := "pay1", status := "completed", cashfreeOrderId := some "cf_order_1" }

/-- A more recent pending payment by `client1` for `fileT`. -/
def payPendingNewT : Payment :=
  { payPendingT with id := "pay2", status := "pending", cashfreeOrderId := some "cf_order_2" }

/-- Store where the most recent intent for `(file1, client1)` is pending but an
older one is completed. -/
def stC4x : SysState := ⟨[payDoneOldT, payPendingNewT], [fileT], [creatorT], 0, 0⟩

/-- C4 (counterexample): non-creator `client1`, public priced `file1`, file
found; the most recent PaymentIntent for the pair is `pending`, yet the code
answers `authorized` (it checks for the existence of any completed payment,
not the state of the most recent one), contradicting "Authorized iff the most
recent intent's state is Completed, otherwise PaymentRequired". -/
theorem C4_counterexample :
    findFileById stC4x.files "file1" = some fileT ∧
    fileT.creatorId ≠ "client1" ∧ fileT.isPublic = true ∧ (0 : ℚ) < fileT.price ∧
    (specMostRecentIntent stC4x.payments "file1" "client1").map Payment.status
      = some "pending" ∧
    getDownloadUrl stC4x "file1" "client1" = .authorized := by
  refine ⟨by decide, by decide, rfl, by norm_num [fileT], by decide, ?_⟩
  decide

/-- C4 (amended): for a non-creator requester and a public file with positive
price, the decision is `authorized` exactly when some PaymentIntent for the
`(file, requester)` pair has state `completed` (regardless of later intents),
and `paymentRequired` carrying the file's price otherwise. -/
theorem C4_amended (st : SysState) (fileId userId : String) (file : FileRec)
    (hfile : findFileById st.files fileId = some file)
    (hnc : file.creatorId ≠ userId)
    (hpub : file.isPublic = true) (hprice : 0 < file.price) :
    getDownloadUrl st fileId userId =
      if st.payments.any (fun p =>
          p.fileId == fileId && p.clientId == userId && p.status == "completed")
      then .authorized else .paymentRequired file.price := by
  have hid : file.id = fileId := by
    have hfind : List.find? (fun f : FileRec => f.id == fileId) st.files = some file := by
      simpa [findFileById] using hfile
    have h := List.find?_some hfind
    simpa using h
  have hc : (file.creatorId == userId) = false := by simpa using hnc
  have hp : decide (0 < file.price) = true := decide_eq_true hprice
  unfold getDownloadUrl
  rw [hfile]
  simp only [hc, hpub, hp, Bool.and_self, Bool.false_eq_true, if_false, if_true,
    Bool.true_and, Bool.and_true, ite_true, ite_false]
  rw [hid]
  cases hany : st.payments.any (fun p =>
      p.fileId == fileId && p.clientId == userId && p.status == "completed") with
  | false =>
    have hnone : st.payments.find? (fun p =>
        p.fileId == fileId && p.clientId == userId && p.status == "completed") = none := by
      rw [List.find?_eq_none]
      intro x hx hpx
      have : st.payments.any (fun p =>
          p.fileId == fileId && p.clientId == userId && p.status == "completed") = true :=
        List.any_eq_true.mpr ⟨x, hx, hpx⟩
      rw [hany] at this
      exact Bool.false_ne_true this
    rw [hnone]
    rfl
  | true =>
    rcases List.any_eq_true.mp hany with ⟨x, hx, hpx⟩
    cases hfind : st.payments.find? (fun p =>
        p.fileId == fileId && p.clientId == userId && p.status == "completed") with
    | none => exact absurd hpx (List.find?_eq_none.mp hfind x hx)
    | some y => rfl

/-- C4 witness: one completed payment in the store; the decision is computed by
the amended statement (and evaluates to `authorized`). -/
theorem C4_amended_witness :
    getDownloadUrl ⟨[payDoneOldT], [fileT], [creatorT], 0, 0⟩ "file1" "client1" =
      if ([payDoneOldT].any (fun p =>
          p.fileId == "file1" && p.clientId == "client1" && p.status == "completed"))
      then .authorized else .paymentRequired fileT.price :=
  C4_amended ⟨[payDoneOldT], [fileT], [creatorT], 0, 0⟩ "file1" "client1" fileT
    (by decide) (by decide) rfl (by norm_num [fileT])

/-! ### C5: creators always keep access -/

/-- C5: whenever the requester is the file's creator, the download decision is
`authorized`, regardless of the file's visibility or price and of any payment
state in the store. -/
theorem C5_creator_always_authorized (st : SysState) (fileId userId : String) (file : FileRec)
    (hfile : findFileById st.files fileId = some file)
    (hc : file.creatorId = userId) :
    getDownloadUrl st fileId userId = .authorized := by
  unfold getDownloadUrl
  rw [hfile]
  simp [hc]

/-- A private priced file owned by `creator1`. -/
def filePrivT : FileRec := ⟨"file2", "creator1", false, 500, "ready"⟩

/-- A refunded payment for the private file. -/
def payRefundedT : Payment :=
  { payPendingT with id := "pay3", fileId := "file2", status := "refunded",
                     cashfreeOrderId := some "cf_order_3" }

/-- C5 witness: the creator downloads a private priced file whose only payment
is refunded — still authorized. -/
theorem C5_witness :
    getDownloadUrl ⟨[payRefundedT], [filePrivT], [creatorT], 0, 0⟩ "file2" "creator1"
      = .authorized :=
  C5_creator_always_authorized ⟨[payRefundedT], [filePrivT], [creatorT], 0, 0⟩
    "file2" "creator1" filePrivT (by decide) rfl

/-! ### C1: duplicate success webhook delivery -/

/-- State after the first delivery of the success webhook for `cf_order_1`. -/
def stC1one : SysState := (paymentWebhook cfgT stT evSuccessT "payout_1" "transfer_1" 100).state

/-- State after the same success webhook is delivered a second time. -/
def stC1two : SysState :=
  (paymentWebhook cfgT stC1one evSuccessT "payout_2" "transfer_2" 200).state

/-- C1 (evaluation at the failing input): the first success delivery completes
the single payment and triggers one payout; delivering the *same* success event
again re-mutates the already-completed record (its `payoutId` is regenerated)
and invokes the payout routine a second time — two payout triggers and two
payout dispatches, though still exactly one record.  The handler has no
terminal-state guard, so the claimed idempotence fails on the code. -/
theorem C1_duplicate_success_retriggers_payout :
    stC1two.payoutTriggerCount = 2 ∧ stC1two.payoutDispatchCount = 2 ∧
    (findPaymentById stC1one.payments "pay1").map Payment.status = some "completed" ∧
    (findPaymentById stC1one.payments "pay1").map Payment.payoutId
      = some (some "payout_1") ∧
    (findPaymentById stC1two.payments "pay1").map Payment.payoutId
      = some (some "payout_2") ∧
    stC1two.payments.length = 1 := by
  decide

/-! ### C6: webhook for an unknown order token -/

/-- C6: an inbound webhook event carrying an order token that matches no stored
payment is acknowledged with HTTP 200 / success, mutates nothing (the whole
state, counters included, is unchanged) and leaves a non-empty log. -/
theorem C6_unknown_order_token
    (cfg : CashfreeConfig) (st : SysState) (ev : WebhookEvent) (d : WebhookData)
    (o : OrderInfo) (pid tid : String) (now : Nat)
    (hd : ev.data = some d) (ho : d.order = some o)
    (hfind : findPaymentByOrder st.payments o.cf_order_id = none) :
    (paymentWebhook cfg st ev pid tid now).statusCode = 200 ∧
    (paymentWebhook cfg st ev pid tid now).success = true ∧
    (paymentWebhook cfg st ev pid tid now).state = st ∧
    (paymentWebhook cfg st ev pid tid now).logs ≠ [] := by
  unfold paymentWebhook
  split
  · simp [handlePaymentSuccess, hd, ho, hfind]
  · split
    · simp [handlePaymentFailure, hd, ho, hfind]
    · split
      · simp [handlePaymentDropped, hd, ho, hfind]
      · simp

/-- C6 witness: a success webhook for the unknown order `cf_unknown` against the
one-payment store. -/
theorem C6_witness :
    (paymentWebhook cfgT stT ⟨some "PAYMENT_SUCCESS_WEBHOOK", some ⟨some ⟨"cf_unknown"⟩, none⟩⟩
        "p" "t" 7).statusCode = 200 ∧
    (paymentWebhook cfgT stT ⟨some "PAYMENT_SUCCESS_WEBHOOK", some ⟨some ⟨"cf_unknown"⟩, none⟩⟩
        "p" "t" 7).success = true ∧
    (paymentWebhook cfgT stT ⟨some "PAYMENT_SUCCESS_WEBHOOK", some ⟨some ⟨"cf_unknown"⟩, none⟩⟩
        "p" "t" 7).state = stT ∧
    (paymentWebhook cfgT stT ⟨some "PAYMENT_SUCCESS_WEBHOOK", some ⟨some ⟨"cf_unknown"⟩, none⟩⟩
        "p" "t" 7).logs ≠ [] :=
  C6_unknown_order_token cfgT stT _ ⟨some ⟨"cf_unknown"⟩, none⟩ ⟨"cf_unknown"⟩
    "p" "t" 7 rfl rfl (by decide)

/-! ### C7: the endpoint always acknowledges -/

/-- C7: every inbound webhook request is answered with success / HTTP 200; and
when the payload is malformed (no `data`, or no `data.order`) the state is
untouched, so a malformed event does not affect the processing of any
subsequent event. -/
theorem C7_always_acknowledges (cfg : CashfreeConfig) (st : SysState) (ev : WebhookEvent)
    (pid tid : String) (now : Nat) :
    (paymentWebhook cfg st ev pid tid now).success = true ∧
    (paymentWebhook cfg st ev pid tid now).statusCode = 200 ∧
    ((ev.data = none ∨ ∃ d, ev.data = some d ∧ d.order = none) →
      (paymentWebhook cfg st ev pid tid now).state = st ∧
      ∀ ev2 pid2 tid2 now2,
        paymentWebhook cfg (paymentWebhook cfg st ev pid tid now).state ev2 pid2 tid2 now2
          = paymentWebhook cfg st ev2 pid2 tid2 now2) := by
  refine ⟨?_, ?_, ?_⟩
  · unfold paymentWebhook
    split
    · rfl
    · split
      · rfl
      · split
        · rfl
        · rfl
  · unfold paymentWebhook
    split
    · rfl
    · split
      · rfl
      · split
        · rfl
        · rfl
  · intro hmal
    have hstate : (paymentWebhook cfg st ev pid tid now).state = st := by
      rcases hmal with hnone | ⟨d, hd, ho⟩
      · unfold paymentWebhook
        split
        · simp [handlePaymentSuccess, hnone]
        · split
          · simp [handlePaymentFailure, hnone]
          · split
            · simp [handlePaymentDropped, hnone]
            · rfl
      · unfold paymentWebhook
        split
        · simp [handlePaymentSuccess, hd, ho]
        · split
          · simp [handlePaymentFailure, hd, ho]
          · split
            · simp [handlePaymentDropped, hd, ho]
            · rfl
    exact ⟨hstate, fun ev2 pid2 tid2 now2 => by rw [hstate]⟩

/-- C7 witness: a success-typed webhook whose `data` is absent, against the
one-payment store: acknowledged with 200/success and the state is unchanged. -/
theorem C7_witness :
    (paymentWebhook cfgT stT ⟨some "PAYMENT_SUCCESS_WEBHOOK", none⟩ "p" "t" 3).success = true ∧
    (paymentWebhook cfgT stT ⟨some "PAYMENT_SUCCESS_WEBHOOK", none⟩ "p" "t" 3).statusCode = 200 ∧
    (paymentWebhook cfgT stT ⟨some "PAYMENT_SUCCESS_WEBHOOK", none⟩ "p" "t" 3).state = stT :=
  ⟨(C7_always_acknowledges cfgT stT ⟨some "PAYMENT_SUCCESS_WEBHOOK", none⟩ "p" "t" 3).1,
   (C7_always_acknowledges cfgT stT ⟨some "PAYMENT_SUCCESS_WEBHOOK", none⟩ "p" "t" 3).2.1,
   ((C7_always_acknowledges cfgT stT ⟨some "PAYMENT_SUCCESS_WEBHOOK", none⟩ "p" "t" 3).2.2
      (Or.inl rfl)).1⟩

/-! ### C8: payout with no registered destination -/

/-- C8: when the gateway is configured, the creator exists but has neither a
UPI phone nor a UPI id (both falsy), the payout routine marks the payment's
`payoutStatus` as `failed` with reason `Creator UPI details missing` (the
source's rendering of `DestinationMissing`) and stops: the external payout
dispatch point is never reached (`payoutDispatchCount` unchanged — so no
dispatch and no automatic retry), and no other collection is touched. -/
theorem C8_missing_destination_fails_payout
    (cfg : CashfreeConfig) (st : SysState) (payment : Payment) (creator : UserRec)
    (pid tid : String) (now : Nat)
    (hconf : cfg.configured = true)
    (hcreator : findUserById st.users payment.creatorId = some creator)
    (hphone : strFalsy creator.phone = true) (hupi : strFalsy creator.upiId = true) :
    (processCreatorPayout cfg st payment pid tid now).payoutDispatchCount
      = st.payoutDispatchCount ∧
    (processCreatorPayout cfg st payment pid tid now).payments =
      savePayment st.payments
        { payment with payoutStatus := "failed",
                       payoutFailureReason := some "Creator UPI details missing" } ∧
    (processCreatorPayout cfg st payment pid tid now).files = st.files ∧
    (processCreatorPayout cfg st payment pid tid now).users = st.users := by
  unfold processCreatorPayout
  simp [hconf, hcreator, hphone, hupi]

/-- A completed payment owed to the destination-less creator `creator2`. -/
def payNoDestT : Payment :=
  { payPendingT with id := "pay8", creatorId := "creator2", status := "completed",
                     creatorUpiPhone := none }

/-- Store for the destination-missing payout scenario. -/
def stC8 : SysState := ⟨[payNoDestT], [fileT], [creatorNoUpiT], 0, 0⟩

/-- C8 witness: concrete payout attempt for `creator2` (no phone, no UPI id). -/
theorem C8_witness :
    (processCreatorPayout cfgT stC8 payNoDestT "po" "tr" 5).payoutDispatchCount
      = stC8.payoutDispatchCount ∧
    (processCreatorPayout cfgT stC8 payNoDestT "po" "tr" 5).payments =
      savePayment stC8.payments
        { payNoDestT with payoutStatus := "failed",
                          payoutFailureReason := some "Creator UPI details missing" } ∧
    (processCreatorPayout cfgT stC8 payNoDestT "po" "tr" 5).files = stC8.files ∧
    (processCreatorPayout cfgT stC8 payNoDestT "po" "tr" 5).users = stC8.users :=
  C8_missing_destination_fails_payout cfgT stC8 payNoDestT creatorNoUpiT "po" "tr" 5
    rfl (by decide) rfl rfl

/-! ### C10: success webhook also mutates the File record -/

lemma processCreatorPayout_files (cfg : CashfreeConfig) (st : SysState) (payment : Payment)
    (pid tid : String) (now : Nat) :
    (processCreatorPayout cfg st payment pid tid now).files = st.files := by
  unfold processCreatorPayout
  by_cases hcf : cfg.configured
  · cases hu : findUserById st.users payment.creatorId with
    | none => simp [hcf, hu]
    | some creator =>
      by_cases hfal : (strFalsy creator.phone && strFalsy creator.upiId) = true
      · simp [hcf, hu, hfal]
      · simp [hcf, hu, hfal]
  · simp [hcf]

lemma processCreatorPayout_find_status (cfg : CashfreeConfig) (st : SysState)
    (payment : Payment) (pid tid : String) (now : Nat)
    (hmem : ∃ q ∈ st.payments, q.id = payment.id) :
    ∃ r, findPaymentById (processCreatorPayout cfg st payment pid tid now).payments payment.id
        = some r ∧ r.status = payment.status := by
  unfold processCreatorPayout
  by_cases hcf : cfg.configured
  · cases hu : findUserById st.users payment.creatorId with
    | none =>
      simp only [hcf, hu, Bool.not_true, Bool.false_eq_true, if_false]
      let pf : Payment :=
        { payment with payoutStatus := "failed", payoutFailureReason := some "Creator not found" }
      exact ⟨pf, findById_savePayment st.payments pf hmem, rfl⟩
    | some creator =>
      by_cases hfal : (strFalsy creator.phone && strFalsy creator.upiId) = true
      · simp only [hcf, hu, hfal, Bool.not_true, Bool.false_eq_true, if_false, if_true]
        let pf : Payment :=
          { payment with payoutStatus := "failed",
                         payoutFailureReason := some "Creator UPI details missing" }
        exact ⟨pf, findById_savePayment st.payments pf hmem, rfl⟩
      · simp only [hcf, hu, hfal, Bool.not_true, Bool.false_eq_true, if_false]
        let p1 : Payment := { payment with payoutStatus := "processing" }
        let p2 : Payment :=
          { payment with payoutStatus := "completed", payoutId := some pid,
                         payoutTransferId := some tid, payoutAt := some now }
        have h1 : ∃ q ∈ savePayment st.payments p1, q.id = payment.id :=
          ⟨p1, self_mem_savePayment st.payments p1 hmem, rfl⟩
        exact ⟨p2, findById_savePayment (savePayment st.payments p1) p2 h1, rfl⟩
  · simp only [hcf, Bool.not_false, if_true]
    let pf : Payment := { payment with payoutStatus := "not_required" }
    exact ⟨pf, findById_savePayment st.payments pf hmem, rfl⟩

/-- C10: a success webhook that matches a stored payment does not only complete
the ledger entry: it also rewrites the `files` collection, setting the
referenced File record's `status` to `delivered` (and the matched payment ends
in status `completed`). -/
theorem C10_success_marks_file_delivered
    (cfg : CashfreeConfig) (st : SysState) (ev : WebhookEvent) (d : WebhookData)
    (o : OrderInfo) (pd : PaymentInfo) (pm : Payment) (pid tid : String) (now : Nat)
    (hty : ev.type = some "PAYMENT_SUCCESS_WEBHOOK")
    (hd : ev.data = some d) (ho : d.order = some o) (hpd : d.payment = some pd)
    (hfind : findPaymentByOrder st.payments o.cf_order_id = some pm) :
    (paymentWebhook cfg st ev pid tid now).state.files
      = updateFileStatus st.files pm.fileId "delivered" ∧
    ∃ r, findPaymentById (paymentWebhook cfg st ev pid tid now).state.payments pm.id
        = some r ∧ r.status = "completed" := by
  have hbranch : (paymentWebhook cfg st ev pid tid now).state
      = (handlePaymentSuccess cfg st ev.data pid tid now).1 := by
    unfold paymentWebhook
    rw [if_pos (by rw [hty]; rfl)]
  have hmem : ∃ q ∈ savePayment st.payments
      { pm with status := "completed", cashfreePaymentId := pd.cf_payment_id,
                transactionId := jsOrOpt pd.payment_id pd.bank_reference,
                paymentMethod := methodOf pd.payment_method, paidAt := some now },
      q.id = pm.id := by
    refine ⟨_, self_mem_savePayment st.payments _ ?_, rfl⟩
    exact ⟨pm, List.mem_of_find?_eq_some hfind, rfl⟩
  constructor
  · rw [hbranch]
    unfold handlePaymentSuccess
    simp only [hd, ho, hfind, hpd]
    rw [processCreatorPayout_files]
  · rw [hbranch]
    unfold handlePaymentSuccess
    simp only [hd, ho, hfind, hpd]
    exact processCreatorPayout_find_status cfg _ _ pid tid now hmem

/-- C10 witness: the concrete success webhook for `cf_order_1` marks `file1` as
delivered and the payment as completed. -/
theorem C10_witness :
    (paymentWebhook cfgT stT evSuccessT "po" "tr" 9).state.files
      = updateFileStatus stT.files payPendingT.fileId "delivered" ∧
    ∃ r, findPaymentById (paymentWebhook cfgT stT evSuccessT "po" "tr" 9).state.payments
        payPendingT.id = some r ∧ r.status = "completed" :=
  C10_success_marks_file_delivered cfgT stT evSuccessT successDataT ⟨"cf_order_1"⟩
    ⟨some "cfpay1", some "txn1", none, some "UPI", none⟩ payPendingT "po" "tr" 9
    rfl rfl rfl rfl (by decide)

/-! ### C9: mutability of the order token -/

/-- Outcome of a concrete successful order creation: the pre-save hook assigned
`uplink_170_ab`, the Cashfree response carries `cf999`. -/
def outC9 : CreateOrderOutcome :=
  createPaymentOrder cfgT ⟨[], [fileT], [creatorT], 0, 0⟩ "client1" "file1" true
    "pay1" "uplink_170_ab" (.ok ⟨"uplink_170_ab", "cf999", "sess1"⟩)

/-- C9 (counterexample): the order token assigned at creation (`uplink_170_ab`,
by the `pre('save')` hook) is *not* immutable: the order-creation flow itself
overwrites it with the gateway's `cf_order_id` (`cf999`) after the gateway call,
so the stored token after the flow differs from the creation-time token. -/
theorem C9_counterexample :
    (newPaymentDoc cfgT fileT creatorT "client1" "pay1" "uplink_170_ab").cashfreeOrderId
      = some "uplink_170_ab" ∧
    (findPaymentById outC9.payments "pay1").map Payment.cashfreeOrderId
      = some (some "cf999") ∧
    some "cf999" ≠ some "uplink_170_ab" := by
  refine ⟨rfl, ?_, by decide⟩
  decide

lemma processCreatorPayout_tokens (cfg : CashfreeConfig) (st : SysState) (payment : Payment)
    (pid tid : String) (now : Nat)
    (h : ∀ q ∈ st.payments, q.id = payment.id → q.cashfreeOrderId = payment.cashfreeOrderId) :
    ((processCreatorPayout cfg st payment pid tid now).payments).map Payment.cashfreeOrderId
      = st.payments.map Payment.cashfreeOrderId := by
  unfold processCreatorPayout
  by_cases hcf : cfg.configured
  · cases hu : findUserById st.users payment.creatorId with
    | none =>
      simp only [hcf, hu, Bool.not_true, Bool.false_eq_true, if_false]
      let pf : Payment :=
        { payment with payoutStatus := "failed", payoutFailureReason := some "Creator not found" }
      exact savePayment_tokens st.payments pf h
    | some creator =>
      by_cases hfal : (strFalsy creator.phone && strFalsy creator.upiId) = true
      · simp only [hcf, hu, hfal, Bool.not_true, Bool.false_eq_true, if_false, if_true]
        let pf : Payment :=
          { payment with payoutStatus := "failed",
                         payoutFailureReason := some "Creator UPI details missing" }
        exact savePayment_tokens st.payments pf h
      · simp only [hcf, hu, hfal, Bool.not_true, Bool.false_eq_true, if_false]
        let p1 : Payment := { payment with payoutStatus := "processing" }
        let p2 : Payment :=
          { payment with payoutStatus := "completed", payoutId := some pid,
                         payoutTransferId := some tid, payoutAt := some now }
        have t1 : (savePayment st.payments p1).map Payment.cashfreeOrderId
            = st.payments.map Payment.cashfreeOrderId :=
          savePayment_tokens st.payments p1 h
        have h2 : ∀ q ∈ savePayment st.payments p1, q.id = p2.id →
            q.cashfreeOrderId = p2.cashfreeOrderId := by
          intro q hq hid
          rcases mem_savePayment st.payments p1 q hq with rfl | ⟨_, hne⟩
          · rfl
          · have hbeq : (q.id == p1.id) = true := beq_iff_eq.mpr hid
            exact absurd hbeq (by simp [hne])
        have t2 : (savePayment (savePayment st.payments p1) p2).map Payment.cashfreeOrderId
            = (savePayment st.payments p1).map Payment.cashfreeOrderId :=
          savePayment_tokens (savePayment st.payments p1) p2 h2
        exact t2.trans t1
  · simp only [hcf, Bool.not_false, if_true]
    let pf : Payment := { payment with payoutStatus := "not_required" }
    exact savePayment_tokens st.payments pf h

lemma handlePaymentSuccess_tokens (cfg : CashfreeConfig) (st : SysState)
    (data : Option WebhookData) (pid tid : String) (now : Nat)
    (hnd : (st.payments.map Payment.id).Nodup) :
    ((handlePaymentSuccess cfg st data pid tid now).1.payments).map Payment.cashfreeOrderId
      = st.payments.map Payment.cashfreeOrderId := by
  unfold handlePaymentSuccess
  cases data with
  | none => rfl
  | some d =>
    cases ho : d.order with
    | none => simp [ho]
    | some o =>
      cases hf : findPaymentByOrder st.payments o.cf_order_id with
      | none => simp [ho, hf]
      | some pm =>
        cases hp : d.payment with
        | none => simp [ho, hf, hp]
        | some pd =>
          simp only [ho, hf, hp]
          have hpmmem : pm ∈ st.payments := List.mem_of_find?_eq_some hf
          let p1 : Payment :=
            { pm with status := "completed", cashfreePaymentId := pd.cf_payment_id,
                      transactionId := jsOrOpt pd.payment_id pd.bank_reference,
                      paymentMethod := methodOf pd.payment_method, paidAt := some now }
          have h1 : ∀ q ∈ st.payments, q.id = p1.id →
              q.cashfreeOrderId = p1.cashfreeOrderId := by
            intro q hq hid
            have hqeq : q = pm := List.inj_on_of_nodup_map hnd hq hpmmem hid
            rw [hqeq]
          have h2 : ∀ q ∈ savePayment st.payments p1, q.id = p1.id →
              q.cashfreeOrderId = p1.cashfreeOrderId := by
            intro q hq hid
            rcases mem_savePayment st.payments p1 q hq with rfl | ⟨_, hne⟩
            · rfl
            · have hbeq : (q.id == p1.id) = true := beq_iff_eq.mpr hid
              exact absurd hbeq (by simp [hne])
          let st1 : SysState := { st with payments := savePayment st.payments p1 }
          let st2 : SysState :=
            { st1 with files := updateFileStatus st1.files p1.fileId "delivered" }
          have tP : ((processCreatorPayout cfg st2 p1 pid tid now).payments).map
              Payment.cashfreeOrderId = st2.payments.map Payment.cashfreeOrderId :=
            processCreatorPayout_tokens cfg st2 p1 pid tid now h2
          exact tP.trans (savePayment_tokens st.payments p1 h1)

lemma handlePaymentFailure_tokens (st : SysState) (data : Option WebhookData)
    (hnd : (st.payments.map Payment.id).Nodup) :
    ((handlePaymentFailure st data).1.payments).map Payment.cashfreeOrderId
      = st.payments.map Payment.cashfreeOrderId := by
  unfold handlePaymentFailure
  cases data with
  | none => rfl
  | some d =>
    cases ho : d.order with
    | none => simp [ho]
    | some o =>
      cases hf : findPaymentByOrder st.payments o.cf_order_id with
      | none => simp [ho, hf]
      | some pm =>
        simp only [ho, hf]
        have hpmmem : pm ∈ st.payments := List.mem_of_find?_eq_some hf
        let p1 : Payment :=
          { pm with status := "failed", failureReason := some (failureReasonOf d.payment),
                    payoutStatus := "not_required" }
        have h1 : ∀ q ∈ st.payments, q.id = p1.id →
            q.cashfreeOrderId = p1.cashfreeOrderId := by
          intro q hq hid
          have hqeq : q = pm := List.inj_on_of_nodup_map hnd hq hpmmem hid
          rw [hqeq]
        exact savePayment_tokens st.payments p1 h1

lemma handlePaymentDropped_tokens (st : SysState) (data : Option WebhookData)
    (hnd : (st.payments.map Payment.id).Nodup) :
    ((handlePaymentDropped st data).1.payments).map Payment.cashfreeOrderId
      = st.payments.map Payment.cashfreeOrderId := by
  unfold handlePaymentDropped
  cases data with
  | none => rfl
  | some d =>
    cases ho : d.order with
    | none => simp [ho]
    | some o =>
      cases hf : findPaymentByOrder st.payments o.cf_order_id with
      | none => simp [ho, hf]
      | some pm =>
        simp only [ho, hf]
        have hpmmem : pm ∈ st.payments := List.mem_of_find?_eq_some hf
        let p1 : Payment :=
          { pm with status := "failed", failureReason := some "Payment dropped by user",
                    payoutStatus := "not_required" }
        have h1 : ∀ q ∈ st.payments, q.id = p1.id →
            q.cashfreeOrderId = p1.cashfreeOrderId := by
          intro q hq hid
          have hqeq : q = pm := List.inj_on_of_nodup_map hnd hq hpmmem hid
          rw [hqeq]
        exact savePayment_tokens st.payments p1 h1

/-- C9 (amended): the order token is assigned by the `pre('save')` hook at
record creation and the order-creation flow then overwrites it exactly once
with the gateway's `cf_order_id` (the counterexample); *after* order creation
it is indeed immutable: webhook processing (success, failure, dropped, payout
included) never changes the `cashfreeOrderId` of any stored payment — the
token list of the store is preserved verbatim (payment ids being unique, as the
database guarantees). -/
theorem C9_amended_webhook_preserves_token (cfg : CashfreeConfig) (st : SysState)
    (ev : WebhookEvent) (pid tid : String) (now : Nat)
    (hnd : (st.payments.map Payment.id).Nodup) :
    ((paymentWebhook cfg st ev pid tid now).state.payments).map Payment.cashfreeOrderId
      = st.payments.map Payment.cashfreeOrderId := by
  unfold paymentWebhook
  split
  · exact handlePaymentSuccess_tokens cfg st ev.data pid tid now hnd
  · split
    · exact handlePaymentFailure_tokens st ev.data hnd
    · split
      · exact handlePaymentDropped_tokens st ev.data hnd
      · rfl

/-- C9 witness: the success webhook on the one-payment store leaves the stored
token list unchanged. -/
theorem C9_amended_witness :
    ((paymentWebhook cfgT stT evSuccessT "p" "t" 1).state.payments).map
        Payment.cashfreeOrderId
      = stT.payments.map Payment.cashfreeOrderId :=
  C9_amended_webhook_preserves_token cfgT stT evSuccessT "p" "t" 1 (by decide)

end UpLink
